import Mathlib

/-!
Verification of the networking-oneview ML2 driver core
(`neutron_oneview_client.py` and `init_sync.py`) against its
natural-language specification.

The Python code is shallowly embedded: dictionaries become structures or
association lists, `dict.get` becomes an `Option`-valued lookup, Python
truthiness of a value retrieved by `get` is made explicit (`None` and the
empty string / empty list are falsy), and a raised exception is an
explicit error value that ends the call.  Remote fabric calls are counted
so that "no fabric mutation happened" is a provable statement.
-/

/-- A raised Python / fabric exception, ending the call that raised it. -/
inductive PyExc
  /-- TypeError, e.g. iterating over None or a call with a wrong arity. -/
  | typeError
  /-- AttributeError, e.g. attribute access on None or a missing attribute. -/
  | attributeError
  /-- KeyError from a bracket lookup on a dict missing the key. -/
  | keyError
  /-- HPOneViewException raised by the remote fabric client. -/
  | fabricError
deriving DecidableEq

/-- `dict.get(key)` on a string-keyed Python dict. -/
def lookupStr {α : Type} (l : List (String × α)) (k : String) : Option α :=
  (l.find? (fun e => e.1 == k)).map (·.2)

/-- `dict.get(key)` where the key expression may itself be None
(a None key is not present in any of the string-keyed tables here). -/
def lookupOptKey {α : Type} (l : List (String × α)) : Option String → Option α
  | none => none
  | some k => lookupStr l k

/-- Python truthiness of a `dict.get` result holding a list:
None and the empty list are falsy. -/
def pyTruthyListOpt : Option (List String) → Bool
  | none => false
  | some l => !l.isEmpty

/-- Python truthiness of a `dict.get` result holding a string:
None and the empty string are falsy. -/
def pyTruthyStrOpt : Option String → Bool
  | none => false
  | some s => !(s == "")

/-- Python truthiness of an optional integer (segmentation id):
None and 0 are falsy. -/
def pyTruthyNatOpt : Option Nat → Bool
  | none => false
  | some n => !(n == 0)

/-! ## Mapping tables and the persisted mapping store -/

/-- The by-type uplink-set mapping built by `Client.__init__`
(`_physnet_uplinkset_mapping_by_type`): a dict with exactly the keys
`tagged` and `untagged`, each mapping a physical network name to a list
of uplink-set ids. -/
structure UplinksetMappingByType where
  tagged : List (String × List String)
  untagged : List (String × List String)
deriving DecidableEq

/-- The two mapping tables stored on `ResourceManager.__init__`:
`physnet_uplinkset_mapping` (by type) and `flat_physnet_net_mapping`
(physical network name to pre-existing fabric network id). -/
structure NetworkTables where
  physnet_uplinkset_mapping : UplinksetMappingByType
  flat_physnet_net_mapping : List (String × String)
deriving DecidableEq

/-- A persisted NetworkMapping row.  `database_manager` is not under
`src/`; the row shape is the spec's NetworkMapping
(fabric network id, attached uplink-set ids, manageable flag), keyed by
the logical network id in the table below.  `neutron_oneview_client`
reads the fabric network id as `oneview_network_id`
(`init_sync` calls the same column `oneview_network_uuid`). -/
structure MappingRow where
  oneview_network_id : String
  uplinkset_ids : List String
  manageable : Bool
deriving DecidableEq

/-- The NetworkMapping table, keyed by logical (neutron) network id. -/
def Db : Type := List (String × MappingRow)

instance : DecidableEq Db := by
  unfold Db
  infer_instance

/-- Modelled from the spec: `db_manager.map_neutron_network_to_oneview`
is not under `src/`; spec section 3 makes `logical_network_id` the unique
key of NetworkMapping, so the write keeps at most one row per id
(an upsert). -/
def mapNeutronNetworkToOneview (db : Db) (network_id oneview_network_id : String)
    (uplinkset_ids : List String) (manageable : Bool) : Db :=
  (List.filter (fun e => !(e.1 == network_id)) db) ++
    [(network_id, ⟨oneview_network_id, uplinkset_ids, manageable⟩)]

/-- Modelled from the spec: `db_manager.delete_neutron_oneview_network`
is not under `src/`; it deletes the NetworkMapping row of the given
logical network id. -/
def deleteNeutronOneviewNetwork (db : Db) (network_id : String) : Db :=
  List.filter (fun e => !(e.1 == network_id)) db

/-- NetworkUplinksetBinding rows: (fabric network id, uplink-set id). -/
def Bindings : Type := List (String × String)

instance : DecidableEq Bindings := by
  unfold Bindings
  infer_instance

/-- Modelled from the spec: `db_manager.delete_oneview_network_uplinkset_by_network`
is not under `src/`; it deletes every NetworkUplinksetBinding row of the
given fabric network id. -/
def deleteOneviewNetworkUplinksetByNetwork (b : Bindings) (oneview_network_id : String) :
    Bindings :=
  List.filter (fun e => !(e.1 == oneview_network_id)) b

/-! ## Mapping Policy (`Network` methods on the mapping tables) -/

def MAPPING_TYPE_NONE : Nat := 0
def FLAT_PHYSNET_NET_MAPPING_TYPE : Nat := 1
def PHYSNET_UPLINKSET_MAPPING_TYPE : Nat := 2

/-- `Network._is_physnet_in_uplinkset_mapping`: returns the truthiness of
`tagged.get(physnet)` or, failing that, the value `untagged.get(physnet)`;
every caller uses the result in a boolean context, so it is embedded as
the disjunction of the two truthiness tests. -/
def isPhysnetInUplinksetMapping (m : UplinksetMappingByType) (physical_network : Option String) :
    Bool :=
  pyTruthyListOpt (lookupOptKey m.tagged physical_network) ||
    pyTruthyListOpt (lookupOptKey m.untagged physical_network)

/-- `Network._is_physical_network_managed`. -/
def isPhysicalNetworkManaged (t : NetworkTables) (physical_network : Option String) : Bool :=
  isPhysnetInUplinksetMapping t.physnet_uplinkset_mapping physical_network ||
    pyTruthyStrOpt (lookupOptKey t.flat_physnet_net_mapping physical_network)

/-- `Network._get_network_mapping_type`.  Note the flat test uses key
membership (`physical_network in self.flat_physnet_net_mapping`), not
truthiness. -/
def getNetworkMappingType (t : NetworkTables) (physical_network : Option String)
    (network_type : Option String) : Nat :=
  let physnet_in_uplinkset_mapping :=
    isPhysnetInUplinksetMapping t.physnet_uplinkset_mapping physical_network
  if network_type == some "vlan" && physnet_in_uplinkset_mapping then
    PHYSNET_UPLINKSET_MAPPING_TYPE
  else if (lookupOptKey t.flat_physnet_net_mapping physical_network).isSome then
    FLAT_PHYSNET_NET_MAPPING_TYPE
  else if physnet_in_uplinkset_mapping then
    PHYSNET_UPLINKSET_MAPPING_TYPE
  else
    MAPPING_TYPE_NONE

/-- `Network._NEUTRON_NET_TYPE_TO_ONEVIEW_NET_TYPE.get(network_type)`. -/
def neutronNetTypeToOneviewNetType : Option String → Option String
  | some s =>
    if s == "vxlan" || s == "vlan" then some "tagged"
    else if s == "flat" then some "untagged"
    else none
  | none => none

/-- `self.physnet_uplinkset_mapping.get(key)` on the by-type dict, whose
only keys are `tagged` and `untagged`; any other key (including None)
yields None, on which the subsequent `.get(physical_network)` raises
AttributeError. -/
def selectUplinksetTable (m : UplinksetMappingByType) :
    Option String → Option (List (String × List String))
  | some s =>
    if s == "tagged" then some m.tagged
    else if s == "untagged" then some m.untagged
    else none
  | none => none

/-! ## Network Reconciler -/

/-- The neutron network dict passed to `Network.create` / `Network.delete`
(keys `id`, `provider:segmentation_id`, `provider:physical_network`,
`provider:network_type`). -/
structure NetworkDict where
  id : String
  segmentation_id : Option Nat
  physical_network : Option String
  network_type : Option String
deriving DecidableEq

/-- Observable outcome of one `Network.create` call:
how many `ethernet_networks.create` fabric calls were issued, which
uplink sets `add_ethernet_networks` was attempted on (failures there are
caught and only logged), the resulting NetworkMapping table, and the
exception that ended the call, if any. -/
structure CreateResult where
  fabricCreates : Nat
  uplinksetAddCalls : List String
  db : Db
  err : Option PyExc
deriving DecidableEq

/-- `Network.create(session, network_dict)`.  The fabric assigns the new
network's uri; `fresh_oneview_id` is the id extracted from it
(`common.id_from_uri`, not under `src/`, modelled as an input).

The call never consults the NetworkMapping table: it only writes it at
the end.  When the physical network is absent from the by-type table
selected by the network type, `uplinksets_id_list` is None (not an empty
list); the fabric network is still created and the subsequent
`for uplinkset_id in uplinksets_id_list` raises TypeError before
`map_neutron_network_to_oneview` runs. -/
def Network.create (t : NetworkTables) (db : Db) (net : NetworkDict)
    (fresh_oneview_id : String) : CreateResult :=
  let physical_network := net.physical_network
  let network_type := net.network_type
  if !(isPhysicalNetworkManaged t physical_network) then
    ⟨0, [], db, none⟩
  else
    let mapping_type := getNetworkMappingType t physical_network network_type
    if mapping_type == MAPPING_TYPE_NONE then
      ⟨0, [], db, none⟩
    else if mapping_type == PHYSNET_UPLINKSET_MAPPING_TYPE then
      match selectUplinksetTable t.physnet_uplinkset_mapping
          (neutronNetTypeToOneviewNetType network_type) with
      | none =>
        -- `.get(...)` on None raises AttributeError before any fabric call
        ⟨0, [], db, some PyExc.attributeError⟩
      | some table =>
        match lookupOptKey table physical_network with
        | none =>
          -- uplinksets_id_list is None; the fabric network is created,
          -- then iterating None in _add_network_to_uplink_sets raises
          ⟨1, [], db, some PyExc.typeError⟩
        | some uplinksets_id_list =>
          ⟨1, uplinksets_id_list,
            mapNeutronNetworkToOneview db net.id fresh_oneview_id uplinksets_id_list true,
            none⟩
    else
      -- flat branch: mapping_type = FLAT forces the lookup to be some
      let oneview_network_id :=
        (lookupOptKey t.flat_physnet_net_mapping physical_network).getD ""
      ⟨0, [], mapNeutronNetworkToOneview db net.id oneview_network_id [] false, none⟩

/-- Observable outcome of one `Network.delete` call. -/
structure DeleteResult where
  fabricDeletes : Nat
  db : Db
  bindings : Bindings
  err : Option PyExc
deriving DecidableEq

/-- `Network.delete(session, network_dict)`.  `fabric_delete_raises`
models whether `ethernet_networks.delete` raises HPOneViewException;
the source has no try/except around it, so a raise propagates before
either row deletion runs. -/
def Network.delete (db : Db) (bindings : Bindings) (net : NetworkDict)
    (fabric_delete_raises : Bool) : DeleteResult :=
  match lookupStr db net.id with
  | none => ⟨0, db, bindings, none⟩
  | some neutron_oneview_network =>
    let oneview_network_id := neutron_oneview_network.oneview_network_id
    if neutron_oneview_network.manageable then
      if fabric_delete_raises then
        ⟨1, db, bindings, some PyExc.fabricError⟩
      else
        ⟨1, deleteNeutronOneviewNetwork db net.id,
          deleteOneviewNetworkUplinksetByNetwork bindings oneview_network_id, none⟩
    else
      ⟨0, deleteNeutronOneviewNetwork db net.id,
        deleteOneviewNetworkUplinksetByNetwork bindings oneview_network_id, none⟩

/-! ## Port Reconciler -/

/-- The `boot` sub-dict of a server-profile connection. -/
structure BootDict where
  priority : Option String
deriving DecidableEq

/-- A server-profile connection record.  Connections appended by
`Port.create` carry `portId`, `networkUri`, `boot` and `functionType`
but no `mac` key, so `mac` is optional. -/
structure Connection where
  portId : Option String
  networkUri : Option String
  boot : Option BootDict
  functionType : Option String
  mac : Option String
deriving DecidableEq

/-- A server profile as read from the fabric. -/
structure ServerProfile where
  uri : Option String
  connections : Option (List Connection)
deriving DecidableEq

/-- A virtual port in a server hardware's port map. -/
structure VirtualPort where
  mac : Option String
  portFunction : String
deriving DecidableEq

/-- A physical port in a server hardware's port map. -/
structure PhysicalPort where
  portNumber : Nat
  virtualPorts : List VirtualPort
deriving DecidableEq

/-- A device slot in a server hardware's port map. -/
structure DeviceSlot where
  slotNumber : Nat
  location : String
  physicalPorts : List PhysicalPort
deriving DecidableEq

/-- The `portMap` of a server hardware record. -/
structure PortMap where
  deviceSlots : List DeviceSlot
deriving DecidableEq

/-- A server hardware record as read from the fabric. -/
structure ServerHardware where
  serverProfileUri : Option String
  portMap : PortMap
deriving DecidableEq

/-- The remote fabric as seen by the Port reconciler:
`server_hardware.get` and `server_profiles.get`.  A `none` result models
the remote call raising HPOneViewException (unknown id / uri). -/
structure PortEnv where
  server_hardware : String → Option ServerHardware
  server_profiles : Option String → Option ServerProfile

/-- A value found under the `bootable` key of `switch_info`; the source
additionally requires it to be of Python type bool. -/
inductive PyBoolValue
  | ofBool (b : Bool)
  | notBool
deriving DecidableEq

/-- The `switch_info` dict of a `local_link_information` entry. -/
structure SwitchInfo where
  server_hardware_id : Option String
  bootable : Option PyBoolValue
deriving DecidableEq

/-- One `local_link_information` entry. -/
structure LocalLinkInfo where
  switch_info : Option SwitchInfo
deriving DecidableEq

/-- The port dict passed to `Port.create` / `Port.delete`.
`local_link_information` is extracted by
`common.local_link_information_from_port` (not under `src/`; modelled
from the spec's PortBinding as the port's local_link_information list). -/
structure PortDict where
  vnic_type : Option String
  network_id : Option String
  mac_address : String
  local_link_information : List LocalLinkInfo
deriving DecidableEq

/-- `validate_local_link_information`. -/
def validateLocalLinkInformation (l : List LocalLinkInfo) : Bool :=
  match l with
  | [] => false
  | [local_link_information] =>
    match local_link_information.switch_info with
    | none => false
    | some switch_info =>
      match switch_info.server_hardware_id, switch_info.bootable with
      | none, _ => false
      | _, none => false
      | some _, some (PyBoolValue.ofBool _) => true
      | some _, some PyBoolValue.notBool => false
  | _ => false

/-- `is_port_valid_to_reflect_on_oneview`. -/
def isPortValidToReflectOnOneview (vnic_type : Option String)
    (neutron_oneview_network : Option MappingRow)
    (local_link_information_list : List LocalLinkInfo) : Bool :=
  if !(vnic_type == some "baremetal") then false
  else if neutron_oneview_network.isNone then false
  else validateLocalLinkInformation local_link_information_list

/-- Modelled from the spec: `common.network_uri_from_id` is not under
`src/`; it renders the fabric ethernet-network uri of a network id. -/
def networkUriFromId (oneview_network_id : String) : String :=
  "/rest/ethernet-networks/" ++ oneview_network_id

/-- The inner `is_boot_priority_available` of `Port._get_boot_priority`:
walks the connections; a connection without a `boot` dict makes
`connection.get('boot').get('priority')` raise AttributeError. -/
def isBootPriorityAvailable (connections : List Connection) (boot_priority : String) :
    Except PyExc Bool :=
  match connections with
  | [] => Except.ok true
  | connection :: rest =>
    match connection.boot with
    | none => Except.error PyExc.attributeError
    | some boot =>
      if boot.priority == some boot_priority then Except.ok false
      else isBootPriorityAvailable rest boot_priority

/-- `Port._get_boot_priority`.  When bootable, a missing `connections`
key makes the availability scan iterate None (TypeError). -/
def getBootPriority (server_profile : ServerProfile) (bootable : Bool) :
    Except PyExc String :=
  if bootable then
    match server_profile.connections with
    | none => Except.error PyExc.typeError
    | some connections =>
      match isBootPriorityAvailable connections "Primary" with
      | Except.error e => Except.error e
      | Except.ok true => Except.ok "Primary"
      | Except.ok false =>
        match isBootPriorityAvailable connections "Secondary" with
        | Except.error e => Except.error e
        | Except.ok true => Except.ok "Secondary"
        | Except.ok false => Except.ok "NotBootable"
  else Except.ok "NotBootable"

/-- The port-info record assembled by the inner `get_port_info` of
`Port._port_id_from_mac`. -/
structure PortInfo where
  virtual_port_function : String
  physical_port_number : Nat
  device_slot_port_number : Nat
  device_slot_location : String
deriving DecidableEq

/-- The depth-first search of `get_port_info`: device slots, then
physical ports, then virtual ports; first MAC match wins, comparison
against the uppercased port MAC. -/
def getPortInfo (server_hardware : ServerHardware) (mac_address : String) : Option PortInfo :=
  server_hardware.portMap.deviceSlots.findSome? fun device_slot =>
    device_slot.physicalPorts.findSome? fun physical_port =>
      physical_port.virtualPorts.findSome? fun virtual_port =>
        if virtual_port.mac == some mac_address.toUpper then
          some ⟨virtual_port.portFunction, physical_port.portNumber,
            device_slot.slotNumber, device_slot.location⟩
        else none

/-- The string assembled by `Port._port_id_from_mac` from the port info. -/
def portIdString (p : PortInfo) : String :=
  p.device_slot_location ++ " " ++ toString p.device_slot_port_number ++ ":" ++
    toString p.physical_port_number ++ "-" ++ p.virtual_port_function

/-- Observable outcome of one `Port.create` / `Port.delete` call:
remote fabric reads, `server_profiles.update` pushes, the profile
pushed (if the push was reached), and the exception ending the call. -/
structure PortOpResult where
  fabricCalls : Nat
  updateCalls : Nat
  pushedProfile : Option ServerProfile
  err : Option PyExc
deriving DecidableEq

/-- `Port.create(session, port_dict)`.  An invalid port is logged and
returned from before any fabric call.  On the valid path the branches
marked unreachable are excluded by the validity gate. -/
def Port.create (env : PortEnv) (db : Db) (port : PortDict) : PortOpResult :=
  let neutron_oneview_network := lookupOptKey db port.network_id
  let local_link_information_list := port.local_link_information
  if !(isPortValidToReflectOnOneview port.vnic_type neutron_oneview_network
      local_link_information_list) then
    ⟨0, 0, none, none⟩
  else
    match local_link_information_list, neutron_oneview_network with
    | [local_link_information], some row =>
      match local_link_information.switch_info with
      | some switch_info =>
        match switch_info.server_hardware_id, switch_info.bootable with
        | some server_hardware_id, some (PyBoolValue.ofBool bootable) =>
          let network_uri := networkUriFromId row.oneview_network_id
          match env.server_hardware server_hardware_id with
          | none => ⟨1, 0, none, some PyExc.fabricError⟩
          | some server_hardware =>
            match env.server_profiles server_hardware.serverProfileUri with
            | none => ⟨2, 0, none, some PyExc.fabricError⟩
            | some server_profile =>
              match getBootPriority server_profile bootable with
              | Except.error e => ⟨2, 0, none, some e⟩
              | Except.ok boot_priority =>
                -- _port_id_from_mac fetches the server hardware again
                match env.server_hardware server_hardware_id with
                | none => ⟨3, 0, none, some PyExc.fabricError⟩
                | some server_hardware2 =>
                  match getPortInfo server_hardware2 port.mac_address with
                  | none =>
                    -- port_info is None; `port_info.get(...)` raises
                    ⟨3, 0, none, some PyExc.attributeError⟩
                  | some port_info =>
                    -- server_profile['connections'] is a bracket lookup
                    match server_profile.connections with
                    | none => ⟨3, 0, none, some PyExc.keyError⟩
                    | some connections =>
                      let new_connection : Connection :=
                        ⟨some (portIdString port_info), some network_uri,
                          some ⟨some boot_priority⟩, some "Ethernet", none⟩
                      let updated :=
                        { server_profile with
                          connections := some (connections ++ [new_connection]) }
                      ⟨4, 1, some updated, none⟩
        | _, _ => ⟨0, 0, none, some PyExc.typeError⟩  -- unreachable: gated
      | none => ⟨0, 0, none, some PyExc.typeError⟩    -- unreachable: gated
    | _, _ => ⟨0, 0, none, some PyExc.typeError⟩      -- unreachable: gated

/-- The inner `connection_with_mac_address` of `Port.delete`: first
connection whose `mac` equals the port's MAC (no case folding here). -/
def connectionWithMacAddress (connections : List Connection) (mac_address : String) :
    Option Connection :=
  connections.find? (fun connection => connection.mac == some mac_address)

/-- Python `list.remove`: drop the first element equal to the value. -/
def removeFirst (connections : List Connection) (c : Connection) : List Connection :=
  match connections with
  | [] => []
  | x :: rest => if x = c then rest else x :: removeFirst rest c

/-- `Port.delete(session, port_dict)`.  The profile update push is made
unconditionally once the profile has been fetched, whether or not a
matching connection was found and removed. -/
def Port.delete (env : PortEnv) (db : Db) (port : PortDict) : PortOpResult :=
  let neutron_oneview_network := lookupOptKey db port.network_id
  let local_link_information_list := port.local_link_information
  if !(isPortValidToReflectOnOneview port.vnic_type neutron_oneview_network
      local_link_information_list) then
    ⟨0, 0, none, none⟩
  else
    match local_link_information_list with
    | [local_link_information] =>
      match local_link_information.switch_info with
      | some switch_info =>
        match switch_info.server_hardware_id with
        | some server_hardware_id =>
          match env.server_hardware server_hardware_id with
          | none => ⟨1, 0, none, some PyExc.fabricError⟩
          | some server_hardware =>
            match env.server_profiles server_hardware.serverProfileUri with
            | none => ⟨2, 0, none, some PyExc.fabricError⟩
            | some server_profile =>
              -- connection_with_mac_address(server_profile.get('connections'), mac)
              match server_profile.connections with
              | none => ⟨2, 0, none, some PyExc.typeError⟩  -- for over None
              | some connections =>
                let remaining :=
                  match connectionWithMacAddress connections port.mac_address with
                  | some connection => removeFirst connections connection
                  | none => connections
                let updated := { server_profile with connections := some remaining }
                ⟨2, 1, some updated, none⟩
        | none => ⟨0, 0, none, some PyExc.typeError⟩  -- unreachable: gated
      | none => ⟨0, 0, none, some PyExc.typeError⟩    -- unreachable: gated
    | _ => ⟨0, 0, none, some PyExc.typeError⟩         -- unreachable: gated

/-! ## Periodic Sync Engine (`init_sync.py`) -/

/-- A neutron network row, as used by the periodic passes. -/
structure NeutronNetwork where
  id : String
  name : String
deriving DecidableEq

/-- A network segment row. -/
structure Segment where
  physical_network : Option String
  network_type : Option String
  segmentation_id : Option Nat
deriving DecidableEq

/-- Arity facts of the Python call sites the periodic engine uses.
A CPython call succeeds only when every required positional parameter is
bound, and binds no extra positional arguments. -/
def pyCallOk (required given : Nat) : Bool := given == required

/-- `Client.__init__(self, oneview_client, physnet_uplinkset_mapping,
flat_physnet_net_mapping)`: three required arguments after self. -/
def clientInitRequiredArgs : Nat := 3

/-- `InitSync.__init__` calls `neutron_oneview_client.Client(oneview_client)`
with a single argument. -/
def initSyncClientArgs : Nat := 1

/-- Whether the Client construction in `InitSync.__init__` binds. -/
def initSyncConstructsClient : Bool := pyCallOk clientInitRequiredArgs initSyncClientArgs

/-- The attributes `Client.__init__` sets on a Client instance. -/
def clientAttributes : List String := ["network", "port"]

/-- `Network.create(self, session, network_dict)`: two required
arguments after self. -/
def networkCreateRequiredArgs : Nat := 2

/-- `check_mapped_networks_on_db_and_create_on_oneview` calls
`self.client.network.create(session, network_dict, uplinkset_id_list,
oneview_network_mapping_dict)` with four arguments. -/
def initSyncNetworkCreateArgs : Nat := 4

/-- Resolving `self.client.uplinkset` (done before any
`remove_network` / `add_network` / `get_uplinkset_by_type` call in the
periodic passes): Client instances expose only the attributes set by
`Client.__init__`, so the lookup raises AttributeError before a call
can be made. -/
def clientUplinksetCall : Except PyExc Unit :=
  if clientAttributes.contains "uplinkset" then Except.ok ()
  else Except.error PyExc.attributeError

/-- Outcome of one periodic pass: ids of networks whose loop iteration
completed, number of fabric operations performed through the client,
and the exception that ended the pass, if any. -/
structure PassResult where
  completed : List String
  fabricOps : Nat
  err : Option PyExc
deriving DecidableEq

/-- Record a finished loop iteration for a network id. -/
def consCompleted (id : String) (r : PassResult) : PassResult :=
  { r with completed := id :: r.completed }

/-- `db_manager.get_network_uplinksets(session, oneview_network_id)`
followed by the list comprehension over `oneview_uplinkset_uuid`:
the uplink-set ids currently bound to the given fabric network.
(Modelled from the spec: the accessor itself is not under `src/`.) -/
def getNetworkUplinksets (bindings : Bindings) (oneview_network_id : String) : List String :=
  (List.filter (fun e => e.1 == oneview_network_id) bindings).map (·.2)

/-- One `self.client.uplinkset.remove_network` or `.add_network` call
per pending uplink-set id, in loop order: each call first resolves the
`uplinkset` attribute.  Returns the number of fabric operations that
completed and the exception that stopped the loop, if any. -/
def driveUplinksetCalls : List String → Nat × Option PyExc
  | [] => (0, none)
  | _ :: rest =>
    match clientUplinksetCall with
    | Except.error e => (0, some e)
    | Except.ok _ =>
      let r := driveUplinksetCalls rest
      (r.1 + 1, r.2)

/-- The ids the two symmetric-difference loops of
`check_and_sync_mapped_uplinksets_on_db` issue client calls for, in
loop order: first every bound id not in the configured list
(`remove_network`), then every configured id not bound (`add_network`). -/
def pendingUplinksetIds (network_uplinkset_list physical_network_uplinkset_list :
    List String) : List String :=
  (network_uplinkset_list.filter
    (fun u => !(physical_network_uplinkset_list.contains u))) ++
  (physical_network_uplinkset_list.filter
    (fun u => !(network_uplinkset_list.contains u)))

/-- The loop body sequence of `check_and_sync_mapped_uplinksets_on_db`
over the rows of `list_networks_and_segments_with_physnet`.
For each (network, segment) pair: skip when the physical network is
absent from the configured uplink-set mapping dict; otherwise read the
NetworkMapping row and immediately dereference
`neutron_oneview_network.oneview_network_uuid` — an AttributeError on
None when no row exists (the `is None` test in the source comes only
after this dereference); then issue one client call per uplink-set id
in the two symmetric-difference loops. -/
def syncVisit (bindings : Bindings) :
    Option (List String) → Option MappingRow → String → PassResult → PassResult
  | none, _, nid, r => consCompleted nid r
  | some _, none, _, _ => ⟨[], 0, some PyExc.attributeError⟩
  | some physical_network_uplinkset_list, some neutron_oneview_network, nid, r =>
    match driveUplinksetCalls (pendingUplinksetIds
        (getNetworkUplinksets bindings neutron_oneview_network.oneview_network_id)
        physical_network_uplinkset_list) with
    | (k, some e) => ⟨[], k, some e⟩
    | (k, none) => ⟨nid :: r.completed, k + r.fabricOps, r.err⟩

def syncGo (mappings : Db) (bindings : Bindings) (umap : List (String × List String)) :
    List (NeutronNetwork × Segment) → PassResult
  | [] => ⟨[], 0, none⟩
  | (neutron_network, segment) :: rest =>
    syncVisit bindings (lookupOptKey umap segment.physical_network)
      (lookupStr mappings neutron_network.id) neutron_network.id
      (syncGo mappings bindings umap rest)

/-- The database state read by `check_and_sync_mapped_uplinksets_on_db`. -/
structure SyncDb where
  networks_and_segments : List (NeutronNetwork × Segment)
  mappings : Db
  uplinkset_bindings : Bindings

/-- `InitSync.check_and_sync_mapped_uplinksets_on_db`, given the
configured uplink-set mapping dict (`uplinkset_mappings_dict`). -/
def checkAndSyncMappedUplinksetsOnDb (db : SyncDb) (umap : List (String × List String)) :
    PassResult :=
  syncGo db.mappings db.uplinkset_bindings umap db.networks_and_segments

/-- The loop body sequence of
`check_mapped_networks_on_db_and_create_on_oneview` over
`list_neutron_networks`.  For each network: fetch its segment; when a
NetworkMapping row exists the iteration continues without touching the
segment; otherwise a missing segment raises AttributeError on
`segment.physical_network`; a None physical network continues; otherwise
the pass resolves `self.client.uplinkset` (AttributeError — Client has
no such attribute) and, were that to succeed, would call
`network.create` with four arguments against its two-parameter
signature. -/
def createVisit : Option MappingRow → Option Segment → String → PassResult → PassResult
  | some _, _, nid, r => consCompleted nid r
  | none, none, _, _ => ⟨[], 0, some PyExc.attributeError⟩
  | none, some segment, nid, r =>
    if segment.physical_network.isNone then consCompleted nid r
    else
      match clientUplinksetCall with
      | Except.error e => ⟨[], 0, some e⟩
      | Except.ok _ =>
        if pyCallOk networkCreateRequiredArgs initSyncNetworkCreateArgs then
          ⟨nid :: r.completed, r.fabricOps + 1, r.err⟩
        else ⟨[], 0, some PyExc.typeError⟩

def createGo (segments : List (String × Segment)) (mappings : Db) :
    List NeutronNetwork → PassResult
  | [] => ⟨[], 0, none⟩
  | neutron_network :: rest =>
    createVisit (lookupStr mappings neutron_network.id)
      (lookupStr segments neutron_network.id) neutron_network.id
      (createGo segments mappings rest)

/-- The database state read by
`check_mapped_networks_on_db_and_create_on_oneview`. -/
structure CreateSyncDb where
  neutron_networks : List NeutronNetwork
  segments : List (String × Segment)
  mappings : Db

/-- `InitSync.check_mapped_networks_on_db_and_create_on_oneview`. -/
def checkMappedNetworksOnDbAndCreateOnOneview (db : CreateSyncDb) : PassResult :=
  createGo db.segments db.mappings db.neutron_networks

/-- A (network, segment) pair the drift-correction pass cannot step
over without a client call or an attribute dereference on a missing
row: the physical network is in the configured mapping dict and either
no NetworkMapping row exists or the bound and configured uplink-set id
lists differ somewhere. -/
def needsDriftAttention (mappings : Db) (bindings : Bindings)
    (umap : List (String × List String)) (x : NeutronNetwork × Segment) : Bool :=
  match lookupOptKey umap x.2.physical_network with
  | none => false
  | some lst =>
    match lookupStr mappings x.1.id with
    | none => true
    | some row =>
      let current := getNetworkUplinksets bindings row.oneview_network_id
      current.any (fun u => !(lst.contains u)) ||
        lst.any (fun u => !(current.contains u))

/-- A network the creation pass must hand to the client: no
NetworkMapping row, and a segment with a non-null physical network. -/
def needsCreation (segments : List (String × Segment)) (mappings : Db)
    (n : NeutronNetwork) : Bool :=
  (lookupStr mappings n.id).isNone &&
    (match lookupStr segments n.id with
     | none => false
     | some segment => segment.physical_network.isSome)

/-! ## Helper lemmas -/

theorem getNetworkMappingType_eq (t : NetworkTables) (p nt : Option String) :
    getNetworkMappingType t p nt =
      (if (nt == some "vlan") && isPhysnetInUplinksetMapping t.physnet_uplinkset_mapping p then
        PHYSNET_UPLINKSET_MAPPING_TYPE
      else if (lookupOptKey t.flat_physnet_net_mapping p).isSome then
        FLAT_PHYSNET_NET_MAPPING_TYPE
      else if isPhysnetInUplinksetMapping t.physnet_uplinkset_mapping p then
        PHYSNET_UPLINKSET_MAPPING_TYPE
      else MAPPING_TYPE_NONE) := rfl

theorem mappingType_uplinkset_inU (t : NetworkTables) (p nt : Option String)
    (h : getNetworkMappingType t p nt = PHYSNET_UPLINKSET_MAPPING_TYPE) :
    isPhysnetInUplinksetMapping t.physnet_uplinkset_mapping p = true := by
  by_cases hU : isPhysnetInUplinksetMapping t.physnet_uplinkset_mapping p = true
  · exact hU
  · exfalso
    rw [Bool.not_eq_true] at hU
    rw [getNetworkMappingType_eq, hU] at h
    simp only [Bool.and_false, Bool.false_eq_true, if_false] at h
    by_cases hf : (lookupOptKey t.flat_physnet_net_mapping p).isSome = true
    · rw [if_pos hf] at h
      exact absurd h (by decide)
    · rw [if_neg hf] at h
      exact absurd h (by decide)

theorem mappingType_flat_isSome (t : NetworkTables) (p nt : Option String)
    (h : getNetworkMappingType t p nt = FLAT_PHYSNET_NET_MAPPING_TYPE) :
    (lookupOptKey t.flat_physnet_net_mapping p).isSome = true := by
  rw [getNetworkMappingType_eq] at h
  by_cases h1 : ((nt == some "vlan") &&
      isPhysnetInUplinksetMapping t.physnet_uplinkset_mapping p) = true
  · rw [if_pos h1] at h
    exact absurd h (by decide)
  · rw [if_neg h1] at h
    by_cases hf : (lookupOptKey t.flat_physnet_net_mapping p).isSome = true
    · exact hf
    · exfalso
      rw [if_neg hf] at h
      by_cases h3 : isPhysnetInUplinksetMapping t.physnet_uplinkset_mapping p = true
      · rw [if_pos h3] at h
        exact absurd h (by decide)
      · rw [if_neg h3] at h
        exact absurd h (by decide)

theorem find?_filtered_append (db : Db) (id : String) (row : MappingRow) :
    List.find? (fun e => e.1 == id)
      ((List.filter (fun e => !(e.1 == id)) db) ++ [(id, row)]) = some (id, row) := by
  induction db with
  | nil => simp [List.find?]
  | cons e rest ih =>
    by_cases he : (e.1 == id) = true
    · have : (!(e.1 == id)) = false := by simp [he]
      simp only [List.filter_cons, this, Bool.false_eq_true, if_false]
      exact ih
    · have hne : (!(e.1 == id)) = true := by simp [Bool.not_eq_true] at he ⊢; exact he
      simp only [List.filter_cons, hne, if_true, List.cons_append, List.find?]
      rw [Bool.not_eq_true] at he
      rw [he]
      exact ih

theorem lookupStr_upsert (db : Db) (id ov : String) (l : List String) (m : Bool) :
    lookupStr (mapNeutronNetworkToOneview db id ov l m) id = some ⟨ov, l, m⟩ := by
  unfold lookupStr mapNeutronNetworkToOneview
  rw [find?_filtered_append]
  rfl

theorem upsert_key_count (db : Db) (id ov : String) (l : List String) (m : Bool) :
    ((mapNeutronNetworkToOneview db id ov l m).filter (fun e => e.1 == id)).length = 1 := by
  unfold mapNeutronNetworkToOneview
  rw [List.filter_append]
  have h1 : (List.filter (fun e => e.1 == id) (List.filter (fun e => !(e.1 == id)) db)) = [] := by
    rw [List.filter_eq_nil_iff]
    intro a ha
    have := (List.mem_filter.mp ha).2
    simp only [Bool.not_eq_true'] at this
    simp [this]
  rw [h1]
  simp

/-- Claim C3: the Mapping Policy rules are evaluated in the stated
order.  A vlan segment whose physical network is in the tagged or
untagged uplink-set mapping is UplinksetMapped regardless of the flat
table; otherwise flat-table membership gives FlatMapped; otherwise
uplink-set membership gives UplinksetMapped; otherwise Unmanaged. -/
theorem network_mapping_type_rule_order :
    (∀ (t : NetworkTables) (p : Option String),
      isPhysnetInUplinksetMapping t.physnet_uplinkset_mapping p = true →
      getNetworkMappingType t p (some "vlan") = PHYSNET_UPLINKSET_MAPPING_TYPE) ∧
    (∀ (t : NetworkTables) (p nt : Option String),
      ((nt == some "vlan") &&
        isPhysnetInUplinksetMapping t.physnet_uplinkset_mapping p) = false →
      (lookupOptKey t.flat_physnet_net_mapping p).isSome = true →
      getNetworkMappingType t p nt = FLAT_PHYSNET_NET_MAPPING_TYPE) ∧
    (∀ (t : NetworkTables) (p nt : Option String),
      (lookupOptKey t.flat_physnet_net_mapping p).isSome = false →
      isPhysnetInUplinksetMapping t.physnet_uplinkset_mapping p = true →
      getNetworkMappingType t p nt = PHYSNET_UPLINKSET_MAPPING_TYPE) ∧
    (∀ (t : NetworkTables) (p nt : Option String),
      isPhysnetInUplinksetMapping t.physnet_uplinkset_mapping p = false →
      (lookupOptKey t.flat_physnet_net_mapping p).isSome = false →
      getNetworkMappingType t p nt = MAPPING_TYPE_NONE) := by
  refine ⟨?_, ?_, ?_, ?_⟩
  · intro t p h
    rw [getNetworkMappingType_eq]
    simp [h]
  · intro t p nt h hf
    rw [getNetworkMappingType_eq, h]
    simp [hf]
  · intro t p nt hf h
    rw [getNetworkMappingType_eq]
    simp [h, hf]
  · intro t p nt h hf
    rw [getNetworkMappingType_eq, h]
    simp [hf]

/-- Witness for C3 at concrete inputs: physnetA is in the tagged
uplink-set table and in the flat table; a vlan segment resolves to
UplinksetMapped, and the other three rules fire on suitable inputs. -/
theorem network_mapping_type_rule_order_witness :
    (isPhysnetInUplinksetMapping ⟨[("physnetA", ["u1"])], []⟩ (some "physnetA") = true ∧
      getNetworkMappingType
        ⟨⟨[("physnetA", ["u1"])], []⟩, [("physnetA", "ovflat")]⟩
        (some "physnetA") (some "vlan") = PHYSNET_UPLINKSET_MAPPING_TYPE) ∧
    (getNetworkMappingType
        ⟨⟨[("physnetA", ["u1"])], []⟩, [("physnetB", "ovflat")]⟩
        (some "physnetB") (some "flat") = FLAT_PHYSNET_NET_MAPPING_TYPE) ∧
    (getNetworkMappingType
        ⟨⟨[("physnetA", ["u1"])], []⟩, []⟩
        (some "physnetA") (some "vxlan") = PHYSNET_UPLINKSET_MAPPING_TYPE) ∧
    (getNetworkMappingType
        ⟨⟨[("physnetA", ["u1"])], []⟩, []⟩
        (some "physnetC") (some "vlan") = MAPPING_TYPE_NONE) := by
  refine ⟨⟨by decide, ?_⟩, ?_, ?_, ?_⟩
  · exact network_mapping_type_rule_order.1
      ⟨⟨[("physnetA", ["u1"])], []⟩, [("physnetA", "ovflat")]⟩ (some "physnetA") (by decide)
  · exact network_mapping_type_rule_order.2.1
      ⟨⟨[("physnetA", ["u1"])], []⟩, [("physnetB", "ovflat")]⟩ (some "physnetB") (some "flat")
      (by decide) (by decide)
  · exact network_mapping_type_rule_order.2.2.1
      ⟨⟨[("physnetA", ["u1"])], []⟩, []⟩ (some "physnetA") (some "vxlan") (by decide) (by decide)
  · exact network_mapping_type_rule_order.2.2.2
      ⟨⟨[("physnetA", ["u1"])], []⟩, []⟩ (some "physnetC") (some "vlan") (by decide) (by decide)

/-- Claim C9: for a logical network the Mapping Policy resolves as
FlatMapped (with an actual fabric network id recorded for its physical
network), `Network.create` performs no fabric mutation: no
`ethernet_networks.create` call and no uplink-set attachment; it
resolves the fabric network id from the flat table and persists a
NetworkMapping with manageable=false and an empty binding list. -/
theorem network_create_flat_mapped
    (t : NetworkTables) (db : Db) (net : NetworkDict) (fresh : String)
    (hmt : getNetworkMappingType t net.physical_network net.network_type =
      FLAT_PHYSNET_NET_MAPPING_TYPE)
    (htr : pyTruthyStrOpt (lookupOptKey t.flat_physnet_net_mapping net.physical_network) =
      true) :
    (Network.create t db net fresh).fabricCreates = 0 ∧
    (Network.create t db net fresh).uplinksetAddCalls = [] ∧
    (Network.create t db net fresh).err = none ∧
    lookupStr (Network.create t db net fresh).db net.id =
      some ⟨(lookupOptKey t.flat_physnet_net_mapping net.physical_network).getD "",
        [], false⟩ := by
  have hman : isPhysicalNetworkManaged t net.physical_network = true := by
    unfold isPhysicalNetworkManaged
    rw [htr]
    simp
  have h0 : (getNetworkMappingType t net.physical_network net.network_type ==
      MAPPING_TYPE_NONE) = false := by rw [hmt]; decide
  have h2 : (getNetworkMappingType t net.physical_network net.network_type ==
      PHYSNET_UPLINKSET_MAPPING_TYPE) = false := by rw [hmt]; decide
  simp only [Network.create, hman, Bool.not_true, Bool.false_eq_true, if_false, h0, h2]
  refine ⟨trivial, trivial, trivial, ?_⟩
  exact lookupStr_upsert db net.id _ [] false

/-- Witness for C9: physnetB is only in the flat table; the flat create
writes the mapping row and makes no fabric call. -/
theorem network_create_flat_mapped_witness :
    getNetworkMappingType ⟨⟨[], []⟩, [("physnetB", "ovflat")]⟩ (some "physnetB")
      (some "flat") = FLAT_PHYSNET_NET_MAPPING_TYPE ∧
    pyTruthyStrOpt (lookupOptKey [("physnetB", "ovflat")] (some "physnetB")) = true ∧
    ((Network.create ⟨⟨[], []⟩, [("physnetB", "ovflat")]⟩ []
        ⟨"n9", none, some "physnetB", some "flat"⟩ "unused").fabricCreates = 0 ∧
      (Network.create ⟨⟨[], []⟩, [("physnetB", "ovflat")]⟩ []
        ⟨"n9", none, some "physnetB", some "flat"⟩ "unused").uplinksetAddCalls = [] ∧
      (Network.create ⟨⟨[], []⟩, [("physnetB", "ovflat")]⟩ []
        ⟨"n9", none, some "physnetB", some "flat"⟩ "unused").err = none ∧
      lookupStr (Network.create ⟨⟨[], []⟩, [("physnetB", "ovflat")]⟩ []
        ⟨"n9", none, some "physnetB", some "flat"⟩ "unused").db "n9" =
        some ⟨(lookupOptKey [("physnetB", "ovflat")] (some "physnetB")).getD "",
          [], false⟩) := by
  refine ⟨by decide, by decide, ?_⟩
  exact network_create_flat_mapped ⟨⟨[], []⟩, [("physnetB", "ovflat")]⟩ []
    ⟨"n9", none, some "physnetB", some "flat"⟩ "unused" (by decide) (by decide)

/-- Counterexample for C1: a NetworkMapping row for n1 already exists
(a first create succeeded), yet calling `Network.create` again issues a
second `ethernet_networks.create` fabric call — the claim's "creates no
second fabric network" fails. -/
theorem network_create_second_call_cex :
    (lookupStr ([("n1", ⟨"ov1", ["u1"], true⟩)] : Db) "n1").isSome = true ∧
    (Network.create ⟨⟨[("physnetA", ["u1"])], []⟩, []⟩ [("n1", ⟨"ov1", ["u1"], true⟩)]
      ⟨"n1", some 100, some "physnetA", some "vlan"⟩ "ov2").fabricCreates = 1 := by
  decide

/-- Claim C1 as amended: `Network.create` never consults the
NetworkMapping table, so a second call on an UplinksetMapped network
issues a second fabric network-create call; the NetworkMapping write is
keyed on the logical network id, so the table still ends with exactly
one row for that network (now pointing at the new fabric network). -/
theorem network_create_not_guarded_by_mapping
    (t : NetworkTables) (db : Db) (net : NetworkDict) (fresh : String) (row : MappingRow)
    (tbl : List (String × List String)) (lst : List String)
    (hrow : lookupStr db net.id = some row)
    (hmt : getNetworkMappingType t net.physical_network net.network_type =
      PHYSNET_UPLINKSET_MAPPING_TYPE)
    (htbl : selectUplinksetTable t.physnet_uplinkset_mapping
      (neutronNetTypeToOneviewNetType net.network_type) = some tbl)
    (hlst : lookupOptKey tbl net.physical_network = some lst) :
    (Network.create t db net fresh).fabricCreates = 1 ∧
    ((Network.create t db net fresh).db.filter (fun e => e.1 == net.id)).length = 1 ∧
    lookupStr (Network.create t db net fresh).db net.id = some ⟨fresh, lst, true⟩ := by
  have hU := mappingType_uplinkset_inU t net.physical_network net.network_type hmt
  have hman : isPhysicalNetworkManaged t net.physical_network = true := by
    unfold isPhysicalNetworkManaged
    rw [hU]
    simp
  have h0 : (getNetworkMappingType t net.physical_network net.network_type ==
      MAPPING_TYPE_NONE) = false := by rw [hmt]; decide
  have h2 : (getNetworkMappingType t net.physical_network net.network_type ==
      PHYSNET_UPLINKSET_MAPPING_TYPE) = true := by rw [hmt]; decide
  simp only [Network.create, hman, Bool.not_true, Bool.false_eq_true, if_false, h0, h2,
    if_true, htbl, hlst]
  exact ⟨trivial, upsert_key_count db net.id fresh lst true,
    lookupStr_upsert db net.id fresh lst true⟩

/-- Witness for the amended C1 at concrete inputs: with a mapping row
already present for n1, a second create still issues one fabric create
and the table keeps a single n1 row. -/
theorem network_create_not_guarded_by_mapping_witness :
    lookupStr ([("n1", ⟨"ov1", ["u1"], true⟩)] : Db) "n1" = some ⟨"ov1", ["u1"], true⟩ ∧
    ((Network.create ⟨⟨[("physnetA", ["u1"])], []⟩, []⟩ [("n1", ⟨"ov1", ["u1"], true⟩)]
        ⟨"n1", some 100, some "physnetA", some "vlan"⟩ "ov2").fabricCreates = 1 ∧
      ((Network.create ⟨⟨[("physnetA", ["u1"])], []⟩, []⟩ [("n1", ⟨"ov1", ["u1"], true⟩)]
        ⟨"n1", some 100, some "physnetA", some "vlan"⟩ "ov2").db.filter
          (fun e => e.1 == "n1")).length = 1 ∧
      lookupStr (Network.create ⟨⟨[("physnetA", ["u1"])], []⟩, []⟩
        [("n1", ⟨"ov1", ["u1"], true⟩)]
        ⟨"n1", some 100, some "physnetA", some "vlan"⟩ "ov2").db "n1" =
        some ⟨"ov2", ["u1"], true⟩) := by
  refine ⟨by decide, ?_⟩
  exact network_create_not_guarded_by_mapping ⟨⟨[("physnetA", ["u1"])], []⟩, []⟩
    [("n1", ⟨"ov1", ["u1"], true⟩)] ⟨"n1", some 100, some "physnetA", some "vlan"⟩ "ov2"
    ⟨"ov1", ["u1"], true⟩ [("physnetA", ["u1"])] ["u1"]
    (by decide) (by decide) (by decide) (by decide)

/-- Counterexample for C10: a vlan segment whose physical network is
only in the untagged table is UplinksetMapped, but the tagged table the
network type selects has no entry; `Network.create` still creates the
fabric network and then raises TypeError — it neither resolves an empty
list nor logs-and-skips without raising. -/
theorem network_create_missing_uplinkset_table_cex :
    getNetworkMappingType ⟨⟨[], [("p", ["u1"])]⟩, []⟩ (some "p") (some "vlan") =
      PHYSNET_UPLINKSET_MAPPING_TYPE ∧
    (Network.create ⟨⟨[], [("p", ["u1"])]⟩, []⟩ []
      ⟨"n1", some 5, some "p", some "vlan"⟩ "ov1").err = some PyExc.typeError ∧
    (Network.create ⟨⟨[], [("p", ["u1"])]⟩, []⟩ []
      ⟨"n1", some 5, some "p", some "vlan"⟩ "ov1").fabricCreates = 1 := by
  decide

/-- Claim C10 as amended: for an UplinksetMapped segment whose physical
network is absent from the by-type table selected by its network type,
the resolved value is None rather than an empty list; `Network.create`
creates the fabric network anyway and then raises TypeError iterating
None, persisting no mapping — the log-and-skip guard on an empty list
lives in the periodic engine before create is called, not in create. -/
theorem network_create_missing_uplinkset_entry_raises
    (t : NetworkTables) (db : Db) (net : NetworkDict) (fresh : String)
    (tbl : List (String × List String))
    (hmt : getNetworkMappingType t net.physical_network net.network_type =
      PHYSNET_UPLINKSET_MAPPING_TYPE)
    (htbl : selectUplinksetTable t.physnet_uplinkset_mapping
      (neutronNetTypeToOneviewNetType net.network_type) = some tbl)
    (hnone : lookupOptKey tbl net.physical_network = none) :
    (Network.create t db net fresh).err = some PyExc.typeError ∧
    (Network.create t db net fresh).fabricCreates = 1 ∧
    (Network.create t db net fresh).db = db := by
  have hU := mappingType_uplinkset_inU t net.physical_network net.network_type hmt
  have hman : isPhysicalNetworkManaged t net.physical_network = true := by
    unfold isPhysicalNetworkManaged
    rw [hU]
    simp
  have h0 : (getNetworkMappingType t net.physical_network net.network_type ==
      MAPPING_TYPE_NONE) = false := by rw [hmt]; decide
  have h2 : (getNetworkMappingType t net.physical_network net.network_type ==
      PHYSNET_UPLINKSET_MAPPING_TYPE) = true := by rw [hmt]; decide
  simp only [Network.create, hman, Bool.not_true, Bool.false_eq_true, if_false, h0, h2,
    if_true, htbl, hnone]
  exact ⟨trivial, trivial, trivial⟩

/-- Witness for the amended C10 at a concrete input: vlan segment on a
physical network present only in the untagged table. -/
theorem network_create_missing_uplinkset_entry_raises_witness :
    getNetworkMappingType ⟨⟨[], [("p", ["u1"])]⟩, []⟩ (some "p") (some "vlan") =
      PHYSNET_UPLINKSET_MAPPING_TYPE ∧
    selectUplinksetTable ⟨[], [("p", ["u1"])]⟩
      (neutronNetTypeToOneviewNetType (some "vlan")) = some [] ∧
    ((Network.create ⟨⟨[], [("p", ["u1"])]⟩, []⟩ [("other", ⟨"ovx", [], true⟩)]
        ⟨"n2", some 7, some "p", some "vlan"⟩ "ov3").err = some PyExc.typeError ∧
      (Network.create ⟨⟨[], [("p", ["u1"])]⟩, []⟩ [("other", ⟨"ovx", [], true⟩)]
        ⟨"n2", some 7, some "p", some "vlan"⟩ "ov3").fabricCreates = 1 ∧
      (Network.create ⟨⟨[], [("p", ["u1"])]⟩, []⟩ [("other", ⟨"ovx", [], true⟩)]
        ⟨"n2", some 7, some "p", some "vlan"⟩ "ov3").db = [("other", ⟨"ovx", [], true⟩)]) := by
  refine ⟨by decide, by decide, ?_⟩
  exact network_create_missing_uplinkset_entry_raises ⟨⟨[], [("p", ["u1"])]⟩, []⟩
    [("other", ⟨"ovx", [], true⟩)] ⟨"n2", some 7, some "p", some "vlan"⟩ "ov3" []
    (by decide) (by decide) (by decide)

/-- Counterexample for C4: a manageable NetworkMapping exists for n1 and
the fabric network delete raises; `Network.delete` propagates the error
and neither the NetworkMapping row nor the binding rows are removed —
the claim's "removes the local bookkeeping unconditionally" fails. -/
theorem network_delete_fabric_failure_cex :
    (Network.delete [("n1", ⟨"ov1", ["u1"], true⟩)] [("ov1", "u1")]
      ⟨"n1", none, some "p", some "vlan"⟩ true).err = some PyExc.fabricError ∧
    (Network.delete [("n1", ⟨"ov1", ["u1"], true⟩)] [("ov1", "u1")]
      ⟨"n1", none, some "p", some "vlan"⟩ true).db = [("n1", ⟨"ov1", ["u1"], true⟩)] ∧
    (Network.delete [("n1", ⟨"ov1", ["u1"], true⟩)] [("ov1", "u1")]
      ⟨"n1", none, some "p", some "vlan"⟩ true).bindings = [("ov1", "u1")] := by
  decide

/-- Claim C4 as amended: `Network.delete` removes the NetworkMapping and
NetworkUplinksetBinding rows only when the fabric delete does not raise
(or the mapping is not manageable, so no fabric delete is attempted);
when manageable=true and the fabric delete raises a Client error, the
error propagates and both row deletions are skipped. -/
theorem network_delete_bookkeeping_requires_fabric_success
    (db : Db) (bindings : Bindings) (net : NetworkDict) (row : MappingRow)
    (hrow : lookupStr db net.id = some row) :
    (row.manageable = true →
      (Network.delete db bindings net true).err = some PyExc.fabricError ∧
      (Network.delete db bindings net true).db = db ∧
      (Network.delete db bindings net true).bindings = bindings) ∧
    ((Network.delete db bindings net false).err = none ∧
      (Network.delete db bindings net false).db = deleteNeutronOneviewNetwork db net.id ∧
      (Network.delete db bindings net false).bindings =
        deleteOneviewNetworkUplinksetByNetwork bindings row.oneview_network_id) := by
  constructor
  · intro hm
    unfold Network.delete
    rw [hrow]
    simp [hm]
  · unfold Network.delete
    rw [hrow]
    by_cases hm : row.manageable = true
    · simp [hm]
    · rw [Bool.not_eq_true] at hm
      simp [hm]

/-- Witness for the amended C4 at concrete inputs. -/
theorem network_delete_bookkeeping_requires_fabric_success_witness :
    lookupStr ([("n1", ⟨"ov1", ["u1"], true⟩)] : Db) "n1" = some ⟨"ov1", ["u1"], true⟩ ∧
    ((Network.delete [("n1", ⟨"ov1", ["u1"], true⟩)] [("ov1", "u1")]
        ⟨"n1", none, some "p", some "vlan"⟩ true).err = some PyExc.fabricError ∧
      (Network.delete [("n1", ⟨"ov1", ["u1"], true⟩)] [("ov1", "u1")]
        ⟨"n1", none, some "p", some "vlan"⟩ true).db = [("n1", ⟨"ov1", ["u1"], true⟩)] ∧
      (Network.delete [("n1", ⟨"ov1", ["u1"], true⟩)] [("ov1", "u1")]
        ⟨"n1", none, some "p", some "vlan"⟩ true).bindings = [("ov1", "u1")]) ∧
    ((Network.delete [("n1", ⟨"ov1", ["u1"], true⟩)] [("ov1", "u1")]
        ⟨"n1", none, some "p", some "vlan"⟩ false).err = none ∧
      (Network.delete [("n1", ⟨"ov1", ["u1"], true⟩)] [("ov1", "u1")]
        ⟨"n1", none, some "p", some "vlan"⟩ false).db =
          deleteNeutronOneviewNetwork [("n1", ⟨"ov1", ["u1"], true⟩)] "n1" ∧
      (Network.delete [("n1", ⟨"ov1", ["u1"], true⟩)] [("ov1", "u1")]
        ⟨"n1", none, some "p", some "vlan"⟩ false).bindings =
          deleteOneviewNetworkUplinksetByNetwork [("ov1", "u1")] "ov1") := by
  refine ⟨by decide, ?_, ?_⟩
  · exact (network_delete_bookkeeping_requires_fabric_success
      [("n1", ⟨"ov1", ["u1"], true⟩)] [("ov1", "u1")]
      ⟨"n1", none, some "p", some "vlan"⟩ ⟨"ov1", ["u1"], true⟩ (by decide)).1 (by decide)
  · exact (network_delete_bookkeeping_requires_fabric_success
      [("n1", ⟨"ov1", ["u1"], true⟩)] [("ov1", "u1")]
      ⟨"n1", none, some "p", some "vlan"⟩ ⟨"ov1", ["u1"], true⟩ (by decide)).2

theorem isBootPriorityAvailable_true (conns : List Connection) (bp : String)
    (h : ∀ c ∈ conns, ∃ bd, c.boot = some bd ∧ bd.priority ≠ some bp) :
    isBootPriorityAvailable conns bp = Except.ok true := by
  induction conns with
  | nil => rfl
  | cons c rest ih =>
    obtain ⟨bd, hbd, hne⟩ := h c (List.mem_cons_self c rest)
    have hf : (bd.priority == some bp) = false := by simp [hne]
    show (match c.boot with
      | none => Except.error PyExc.attributeError
      | some boot =>
        if (boot.priority == some bp) = true then Except.ok false
        else isBootPriorityAvailable rest bp) = Except.ok true
    rw [hbd]
    show (if (bd.priority == some bp) = true then Except.ok false
      else isBootPriorityAvailable rest bp) = Except.ok true
    rw [hf]
    show isBootPriorityAvailable rest bp = Except.ok true
    exact ih (fun c' hc' => h c' (List.mem_cons_of_mem c hc'))

theorem isBootPriorityAvailable_false (conns : List Connection) (bp : String)
    (hb : ∀ c ∈ conns, ∃ bd, c.boot = some bd)
    (h : ∃ c ∈ conns, ∃ bd, c.boot = some bd ∧ bd.priority = some bp) :
    isBootPriorityAvailable conns bp = Except.ok false := by
  induction conns with
  | nil =>
    obtain ⟨c, hc, _⟩ := h
    exact absurd hc (List.not_mem_nil c)
  | cons c rest ih =>
    obtain ⟨bd, hbd⟩ := hb c (List.mem_cons_self c rest)
    show (match c.boot with
      | none => Except.error PyExc.attributeError
      | some boot =>
        if (boot.priority == some bp) = true then Except.ok false
        else isBootPriorityAvailable rest bp) = Except.ok false
    rw [hbd]
    show (if (bd.priority == some bp) = true then Except.ok false
      else isBootPriorityAvailable rest bp) = Except.ok false
    by_cases hp : (bd.priority == some bp) = true
    · rw [if_pos hp]
    · rw [if_neg hp]
      apply ih (fun c' hc' => hb c' (List.mem_cons_of_mem c hc'))
      obtain ⟨c0, hc0, bd0, hbd0, hpr⟩ := h
      rcases List.mem_cons.mp hc0 with rfl | hmem
      · exfalso
        rw [hbd] at hbd0
        injection hbd0 with hbb
        rw [hbb, hpr] at hp
        exact hp (by simp)
      · exact ⟨c0, hmem, bd0, hbd0, hpr⟩

/-- Claim C7: boot priority is Primary for a bootable port when no
existing connection claims Primary; else Secondary for a bootable port
when no existing connection claims Secondary; else NotBootable — and a
non-bootable port is always NotBootable regardless of connections. -/
theorem get_boot_priority_spec :
    (∀ (sp : ServerProfile) (conns : List Connection),
      sp.connections = some conns →
      (∀ c ∈ conns, ∃ bd, c.boot = some bd ∧ bd.priority ≠ some "Primary") →
      getBootPriority sp true = Except.ok "Primary") ∧
    (∀ (sp : ServerProfile) (conns : List Connection),
      sp.connections = some conns →
      (∃ c ∈ conns, ∃ bd, c.boot = some bd ∧ bd.priority = some "Primary") →
      (∀ c ∈ conns, ∃ bd, c.boot = some bd ∧ bd.priority ≠ some "Secondary") →
      getBootPriority sp true = Except.ok "Secondary") ∧
    (∀ (sp : ServerProfile) (conns : List Connection),
      sp.connections = some conns →
      (∀ c ∈ conns, ∃ bd, c.boot = some bd) →
      (∃ c ∈ conns, ∃ bd, c.boot = some bd ∧ bd.priority = some "Primary") →
      (∃ c ∈ conns, ∃ bd, c.boot = some bd ∧ bd.priority = some "Secondary") →
      getBootPriority sp true = Except.ok "NotBootable") ∧
    (∀ (sp : ServerProfile), getBootPriority sp false = Except.ok "NotBootable") := by
  refine ⟨?_, ?_, ?_, ?_⟩
  · intro sp conns hc h
    unfold getBootPriority
    rw [if_pos rfl, hc]
    show (match isBootPriorityAvailable conns "Primary" with
      | Except.error e => Except.error e
      | Except.ok true => Except.ok "Primary"
      | Except.ok false =>
        match isBootPriorityAvailable conns "Secondary" with
        | Except.error e => Except.error e
        | Except.ok true => Except.ok "Secondary"
        | Except.ok false => Except.ok "NotBootable") = Except.ok "Primary"
    rw [isBootPriorityAvailable_true conns "Primary" h]
  · intro sp conns hc hP hS
    have hb : ∀ c ∈ conns, ∃ bd, c.boot = some bd := by
      intro c hmem
      obtain ⟨bd, hbd, _⟩ := hS c hmem
      exact ⟨bd, hbd⟩
    unfold getBootPriority
    rw [if_pos rfl, hc]
    show (match isBootPriorityAvailable conns "Primary" with
      | Except.error e => Except.error e
      | Except.ok true => Except.ok "Primary"
      | Except.ok false =>
        match isBootPriorityAvailable conns "Secondary" with
        | Except.error e => Except.error e
        | Except.ok true => Except.ok "Secondary"
        | Except.ok false => Except.ok "NotBootable") = Except.ok "Secondary"
    rw [isBootPriorityAvailable_false conns "Primary" hb hP,
      isBootPriorityAvailable_true conns "Secondary" hS]
  · intro sp conns hc hb hP hS
    unfold getBootPriority
    rw [if_pos rfl, hc]
    show (match isBootPriorityAvailable conns "Primary" with
      | Except.error e => Except.error e
      | Except.ok true => Except.ok "Primary"
      | Except.ok false =>
        match isBootPriorityAvailable conns "Secondary" with
        | Except.error e => Except.error e
        | Except.ok true => Except.ok "Secondary"
        | Except.ok false => Except.ok "NotBootable") = Except.ok "NotBootable"
    rw [isBootPriorityAvailable_false conns "Primary" hb hP,
      isBootPriorityAvailable_false conns "Secondary" hb hS]
  · intro sp
    unfold getBootPriority
    rw [if_neg (by decide)]

/-- Witness for C7 at concrete profiles: an empty connection list gives
Primary; a profile holding a Primary connection gives Secondary; one
holding Primary and Secondary gives NotBootable; a non-bootable port is
NotBootable against the same profile. -/
theorem get_boot_priority_spec_witness :
    getBootPriority ⟨some "/sp1", some []⟩ true = Except.ok "Primary" ∧
    getBootPriority
      ⟨some "/sp1", some [⟨none, none, some ⟨some "Primary"⟩, none, none⟩]⟩ true =
      Except.ok "Secondary" ∧
    getBootPriority
      ⟨some "/sp1", some [⟨none, none, some ⟨some "Primary"⟩, none, none⟩,
        ⟨none, none, some ⟨some "Secondary"⟩, none, none⟩]⟩ true =
      Except.ok "NotBootable" ∧
    getBootPriority
      ⟨some "/sp1", some [⟨none, none, some ⟨some "Primary"⟩, none, none⟩]⟩ false =
      Except.ok "NotBootable" := by
  refine ⟨?_, ?_, ?_, ?_⟩
  · exact get_boot_priority_spec.1 ⟨some "/sp1", some []⟩ [] rfl (by simp)
  · exact get_boot_priority_spec.2.1
      ⟨some "/sp1", some [⟨none, none, some ⟨some "Primary"⟩, none, none⟩]⟩
      [⟨none, none, some ⟨some "Primary"⟩, none, none⟩] rfl
      ⟨⟨none, none, some ⟨some "Primary"⟩, none, none⟩, by simp,
        ⟨some "Primary"⟩, rfl, rfl⟩
      (by intro c hmem
          simp only [List.mem_singleton] at hmem
          exact ⟨⟨some "Primary"⟩, by rw [hmem], by simp⟩)
  · exact get_boot_priority_spec.2.2.1
      ⟨some "/sp1", some [⟨none, none, some ⟨some "Primary"⟩, none, none⟩,
        ⟨none, none, some ⟨some "Secondary"⟩, none, none⟩]⟩
      [⟨none, none, some ⟨some "Primary"⟩, none, none⟩,
        ⟨none, none, some ⟨some "Secondary"⟩, none, none⟩] rfl
      (by intro c hmem
          rcases List.mem_cons.mp hmem with rfl | hmem2
          · exact ⟨⟨some "Primary"⟩, rfl⟩
          · simp only [List.mem_singleton] at hmem2
            exact ⟨⟨some "Secondary"⟩, by rw [hmem2]⟩)
      ⟨⟨none, none, some ⟨some "Primary"⟩, none, none⟩, by simp, ⟨some "Primary"⟩, rfl, rfl⟩
      ⟨⟨none, none, some ⟨some "Secondary"⟩, none, none⟩, by simp,
        ⟨some "Secondary"⟩, rfl, rfl⟩
  · exact get_boot_priority_spec.2.2.2
      ⟨some "/sp1", some [⟨none, none, some ⟨some "Primary"⟩, none, none⟩]⟩

theorem validateLocalLinkInformation_iff (l : List LocalLinkInfo) :
    validateLocalLinkInformation l = true ↔
      ∃ si b, l = [⟨some si⟩] ∧ si.server_hardware_id.isSome = true ∧
        si.bootable = some (PyBoolValue.ofBool b) := by
  rcases l with _ | ⟨⟨si?⟩, rest⟩
  · simp [validateLocalLinkInformation]
  · rcases rest with _ | ⟨e2, rest2⟩
    · rcases si? with _ | ⟨shid?, bt?⟩
      · simp [validateLocalLinkInformation]
      · rcases shid? with _ | shid
        · simp [validateLocalLinkInformation]
        · rcases bt? with _ | bv
          · simp [validateLocalLinkInformation]
          · rcases bv with b | _
            · simp only [validateLocalLinkInformation, true_iff]
              exact ⟨⟨some shid, some (PyBoolValue.ofBool b)⟩, b, rfl, rfl, rfl⟩
            · simp [validateLocalLinkInformation]
    · simp [validateLocalLinkInformation]

theorem isPortValid_eq (vnic_type : Option String)
    (neutron_oneview_network : Option MappingRow) (l : List LocalLinkInfo) :
    isPortValidToReflectOnOneview vnic_type neutron_oneview_network l =
      ((vnic_type == some "baremetal") && !neutron_oneview_network.isNone &&
        validateLocalLinkInformation l) := by
  cases hvt : (vnic_type == some "baremetal") <;>
    cases hr : neutron_oneview_network.isNone <;>
      simp [isPortValidToReflectOnOneview, hvt, hr]

/-- Claim C8: a port is eligible for fabric reflection iff its vnic
type is baremetal, its network has a NetworkMapping row, and its
local-link information is exactly one entry whose switch_info carries a
server_hardware_id and a bootable of boolean type; an ineligible port
makes `Port.create` a silent no-op with zero fabric calls and no error. -/
theorem port_eligibility_iff_and_noop :
    (∀ (vnic_type : Option String) (neutron_oneview_network : Option MappingRow)
        (l : List LocalLinkInfo),
      isPortValidToReflectOnOneview vnic_type neutron_oneview_network l = true ↔
        (vnic_type = some "baremetal" ∧ neutron_oneview_network.isSome = true ∧
          ∃ si b, l = [⟨some si⟩] ∧ si.server_hardware_id.isSome = true ∧
            si.bootable = some (PyBoolValue.ofBool b))) ∧
    (∀ (env : PortEnv) (db : Db) (port : PortDict),
      isPortValidToReflectOnOneview port.vnic_type (lookupOptKey db port.network_id)
        port.local_link_information = false →
      Port.create env db port = ⟨0, 0, none, none⟩) := by
  constructor
  · intro vnic_type neutron_oneview_network l
    rw [isPortValid_eq]
    rw [Bool.and_eq_true, Bool.and_eq_true]
    rw [validateLocalLinkInformation_iff]
    constructor
    · rintro ⟨⟨h1, h2⟩, h3⟩
      refine ⟨by simpa using h1, ?_, h3⟩
      cases neutron_oneview_network
      · simp at h2
      · simp
    · rintro ⟨h1, h2, h3⟩
      refine ⟨⟨by simp [h1], ?_⟩, h3⟩
      cases neutron_oneview_network
      · simp at h2
      · simp
  · intro env db port h
    simp only [Port.create, h, Bool.not_false, if_true]

/-- Witness for C8: the worked eligibility example is eligible; the
same port with vnic_type normal is ineligible and `Port.create` on it
is a silent no-op with zero fabric calls. -/
theorem port_eligibility_iff_and_noop_witness :
    isPortValidToReflectOnOneview (some "baremetal") (some ⟨"ov1", [], true⟩)
      [⟨some ⟨some "SH1", some (PyBoolValue.ofBool true)⟩⟩] = true ∧
    isPortValidToReflectOnOneview (some "normal")
      (lookupOptKey ([("net1", ⟨"ov1", [], true⟩)] : Db) (some "net1"))
      [⟨some ⟨some "SH1", some (PyBoolValue.ofBool true)⟩⟩] = false ∧
    Port.create ⟨fun _ => none, fun _ => none⟩ [("net1", ⟨"ov1", [], true⟩)]
      ⟨some "normal", some "net1", "AA:BB",
        [⟨some ⟨some "SH1", some (PyBoolValue.ofBool true)⟩⟩]⟩ = ⟨0, 0, none, none⟩ := by
  refine ⟨?_, by decide, ?_⟩
  · exact (port_eligibility_iff_and_noop.1 (some "baremetal") (some ⟨"ov1", [], true⟩)
      [⟨some ⟨some "SH1", some (PyBoolValue.ofBool true)⟩⟩]).mpr
      ⟨rfl, rfl, ⟨some "SH1", some (PyBoolValue.ofBool true)⟩, true, rfl, rfl, rfl⟩
  · exact port_eligibility_iff_and_noop.2 ⟨fun _ => none, fun _ => none⟩
      [("net1", ⟨"ov1", [], true⟩)]
      ⟨some "normal", some "net1", "AA:BB",
        [⟨some ⟨some "SH1", some (PyBoolValue.ofBool true)⟩⟩]⟩ (by decide)

/-- Counterexample for C6: an eligible port whose MAC CC:DD matches no
connection on the fetched profile still triggers one
`server_profiles.update` fabric call (with the unchanged profile) — the
claim's "zero fabric update calls" fails. -/
theorem port_delete_no_match_update_cex :
    connectionWithMacAddress [⟨none, none, some ⟨some "Primary"⟩, none, some "AA:BB"⟩]
      "CC:DD" = none ∧
    Port.delete
      ⟨fun s => if s == "SH1" then some ⟨some "/sp1", ⟨[]⟩⟩ else none,
       fun u => if u == some "/sp1" then
         some ⟨some "/sp1", some [⟨none, none, some ⟨some "Primary"⟩, none, some "AA:BB"⟩]⟩
         else none⟩
      [("net1", ⟨"ov1", [], true⟩)]
      ⟨some "baremetal", some "net1", "CC:DD",
        [⟨some ⟨some "SH1", some (PyBoolValue.ofBool false)⟩⟩]⟩ =
      ⟨2, 1,
        some ⟨some "/sp1", some [⟨none, none, some ⟨some "Primary"⟩, none, some "AA:BB"⟩]⟩,
        none⟩ := by
  decide

/-- Claim C6 as amended: deleting an eligible port whose MAC matches no
connection on the server profile leaves the connection list unchanged
but still pushes the profile: exactly one `server_profiles.update`
fabric call is made (after the two fetch calls), with the profile it
fetched. -/
theorem port_delete_no_match_pushes_unchanged_profile
    (env : PortEnv) (db : Db) (port : PortDict) (si : SwitchInfo) (shid : String)
    (sh : ServerHardware) (sp : ServerProfile) (conns : List Connection)
    (hvalid : isPortValidToReflectOnOneview port.vnic_type
      (lookupOptKey db port.network_id) port.local_link_information = true)
    (hlli : port.local_link_information = [⟨some si⟩])
    (hshid : si.server_hardware_id = some shid)
    (hsh : env.server_hardware shid = some sh)
    (hsp : env.server_profiles sh.serverProfileUri = some sp)
    (hconns : sp.connections = some conns)
    (hnomatch : connectionWithMacAddress conns port.mac_address = none) :
    Port.delete env db port =
      ⟨2, 1, some { sp with connections := some conns }, none⟩ := by
  have hvalid2 : isPortValidToReflectOnOneview port.vnic_type
      (lookupOptKey db port.network_id) [⟨some si⟩] = true := by
    rw [← hlli]
    exact hvalid
  simp only [Port.delete, hlli, hvalid2, Bool.not_true, Bool.false_eq_true, if_false,
    hshid, hsh, hsp, hconns, hnomatch]

/-- Witness for the amended C6 at the concrete counterexample inputs. -/
theorem port_delete_no_match_pushes_unchanged_profile_witness :
    isPortValidToReflectOnOneview (some "baremetal")
      (lookupOptKey ([("net1", ⟨"ov1", [], true⟩)] : Db) (some "net1"))
      [⟨some ⟨some "SH1", some (PyBoolValue.ofBool false)⟩⟩] = true ∧
    Port.delete
      ⟨fun s => if s == "SH2" then some ⟨some "/sp2", ⟨[]⟩⟩ else none,
       fun u => if u == some "/sp2" then
         some ⟨some "/sp2", some [⟨none, none, some ⟨some "Primary"⟩, none, some "AA:BB"⟩]⟩
         else none⟩
      [("net1", ⟨"ov1", [], true⟩)]
      ⟨some "baremetal", some "net1", "EE:FF",
        [⟨some ⟨some "SH2", some (PyBoolValue.ofBool false)⟩⟩]⟩ =
      ⟨2, 1,
        some ⟨some "/sp2", some [⟨none, none, some ⟨some "Primary"⟩, none, some "AA:BB"⟩]⟩,
        none⟩ := by
  refine ⟨by decide, ?_⟩
  exact port_delete_no_match_pushes_unchanged_profile
    ⟨fun s => if s == "SH2" then some ⟨some "/sp2", ⟨[]⟩⟩ else none,
     fun u => if u == some "/sp2" then
       some ⟨some "/sp2", some [⟨none, none, some ⟨some "Primary"⟩, none, some "AA:BB"⟩]⟩
       else none⟩
    [("net1", ⟨"ov1", [], true⟩)]
    ⟨some "baremetal", some "net1", "EE:FF",
      [⟨some ⟨some "SH2", some (PyBoolValue.ofBool false)⟩⟩]⟩
    ⟨some "SH2", some (PyBoolValue.ofBool false)⟩ "SH2"
    ⟨some "/sp2", ⟨[]⟩⟩
    ⟨some "/sp2", some [⟨none, none, some ⟨some "Primary"⟩, none, some "AA:BB"⟩]⟩
    [⟨none, none, some ⟨some "Primary"⟩, none, some "AA:BB"⟩]
    (by decide) (by decide) (by decide) (by decide) (by decide) (by decide) (by decide)

theorem clientUplinksetCall_eq :
    clientUplinksetCall = Except.error PyExc.attributeError := rfl

theorem driveUplinksetCalls_nil : driveUplinksetCalls [] = (0, none) := rfl

theorem driveUplinksetCalls_cons (a : String) (l : List String) :
    driveUplinksetCalls (a :: l) = (0, some PyExc.attributeError) := rfl

theorem pendingUplinksetIds_eq_nil_iff (current lst : List String) :
    pendingUplinksetIds current lst = [] ↔
      ((current.any (fun u => !(lst.contains u))) ||
        (lst.any (fun u => !(current.contains u)))) = false := by
  unfold pendingUplinksetIds
  rw [List.append_eq_nil, Bool.or_eq_false_iff]
  constructor
  · rintro ⟨h1, h2⟩
    constructor
    · rw [List.any_eq_false]
      intro x hx hpx
      have hmem : x ∈ List.filter (fun u => !(lst.contains u)) current :=
        List.mem_filter.mpr ⟨hx, hpx⟩
      rw [h1] at hmem
      exact absurd hmem (List.not_mem_nil x)
    · rw [List.any_eq_false]
      intro x hx hpx
      have hmem : x ∈ List.filter (fun u => !(current.contains u)) lst :=
        List.mem_filter.mpr ⟨hx, hpx⟩
      rw [h2] at hmem
      exact absurd hmem (List.not_mem_nil x)
  · rintro ⟨h1, h2⟩
    rw [List.any_eq_false] at h1 h2
    exact ⟨List.filter_eq_nil_iff.mpr h1, List.filter_eq_nil_iff.mpr h2⟩

theorem needsDriftAttention_none (mappings : Db) (bindings : Bindings)
    (umap : List (String × List String)) (n : NeutronNetwork) (seg : Segment)
    (humap : lookupOptKey umap seg.physical_network = none) :
    needsDriftAttention mappings bindings umap (n, seg) = false := by
  unfold needsDriftAttention
  rw [humap]

theorem needsDriftAttention_some_some (mappings : Db) (bindings : Bindings)
    (umap : List (String × List String)) (n : NeutronNetwork) (seg : Segment)
    (lst : List String) (row : MappingRow)
    (humap : lookupOptKey umap seg.physical_network = some lst)
    (hrow : lookupStr mappings n.id = some row) :
    needsDriftAttention mappings bindings umap (n, seg) =
      ((getNetworkUplinksets bindings row.oneview_network_id).any
        (fun u => !(lst.contains u)) ||
       lst.any (fun u =>
        !((getNetworkUplinksets bindings row.oneview_network_id).contains u))) := by
  unfold needsDriftAttention
  rw [humap]
  show (match lookupStr mappings n.id with
    | none => true
    | some row =>
      ((getNetworkUplinksets bindings row.oneview_network_id).any
        (fun u => !(lst.contains u)) ||
       lst.any (fun u =>
        !((getNetworkUplinksets bindings row.oneview_network_id).contains u)))) = _
  rw [hrow]

theorem syncVisit_none_eq (bindings : Bindings) (row : Option MappingRow)
    (nid : String) (r : PassResult) :
    syncVisit bindings none row nid r = consCompleted nid r := rfl

theorem syncVisit_some_none_eq (bindings : Bindings) (lst : List String)
    (nid : String) (r : PassResult) :
    syncVisit bindings (some lst) none nid r = ⟨[], 0, some PyExc.attributeError⟩ := rfl

theorem syncVisit_some_some_nil (bindings : Bindings) (lst : List String)
    (row : MappingRow) (nid : String) (r : PassResult)
    (hpend : pendingUplinksetIds (getNetworkUplinksets bindings row.oneview_network_id)
      lst = []) :
    syncVisit bindings (some lst) (some row) nid r =
      ⟨nid :: r.completed, 0 + r.fabricOps, r.err⟩ := by
  simp only [syncVisit]
  rw [hpend, driveUplinksetCalls_nil]

theorem syncVisit_some_some_cons (bindings : Bindings) (lst : List String)
    (row : MappingRow) (nid : String) (r : PassResult) (p : String) (ps : List String)
    (hpend : pendingUplinksetIds (getNetworkUplinksets bindings row.oneview_network_id)
      lst = p :: ps) :
    syncVisit bindings (some lst) (some row) nid r =
      ⟨[], 0, some PyExc.attributeError⟩ := by
  simp only [syncVisit]
  rw [hpend, driveUplinksetCalls_cons]

theorem syncGo_fabricOps_zero (mappings : Db) (bindings : Bindings)
    (umap : List (String × List String)) (l : List (NeutronNetwork × Segment)) :
    (syncGo mappings bindings umap l).fabricOps = 0 := by
  induction l with
  | nil => rfl
  | cons x rest ih =>
    obtain ⟨n, seg⟩ := x
    simp only [syncGo]
    cases humap : lookupOptKey umap seg.physical_network with
    | none =>
      rw [syncVisit_none_eq]
      show (syncGo mappings bindings umap rest).fabricOps = 0
      exact ih
    | some lst =>
      cases hrow : lookupStr mappings n.id with
      | none =>
        rw [syncVisit_some_none_eq]
      | some row =>
        cases hpend : pendingUplinksetIds
            (getNetworkUplinksets bindings row.oneview_network_id) lst with
        | nil =>
          rw [syncVisit_some_some_nil bindings lst row n.id _ hpend]
          show 0 + (syncGo mappings bindings umap rest).fabricOps = 0
          rw [Nat.zero_add]
          exact ih
        | cons p ps =>
          rw [syncVisit_some_some_cons bindings lst row n.id _ p ps hpend]

theorem syncGo_err_of_attention (mappings : Db) (bindings : Bindings)
    (umap : List (String × List String)) (l : List (NeutronNetwork × Segment))
    (h : ∃ x ∈ l, needsDriftAttention mappings bindings umap x = true) :
    (syncGo mappings bindings umap l).err.isSome = true := by
  induction l with
  | nil =>
    obtain ⟨x, hx, _⟩ := h
    exact absurd hx (List.not_mem_nil x)
  | cons x rest ih =>
    obtain ⟨n, seg⟩ := x
    simp only [syncGo]
    cases humap : lookupOptKey umap seg.physical_network with
    | none =>
      rw [syncVisit_none_eq]
      show (syncGo mappings bindings umap rest).err.isSome = true
      apply ih
      obtain ⟨y, hy, hatt⟩ := h
      rcases List.mem_cons.mp hy with rfl | hmem
      · rw [needsDriftAttention_none mappings bindings umap n seg humap] at hatt
        exact absurd hatt (by decide)
      · exact ⟨y, hmem, hatt⟩
    | some lst =>
      cases hrow : lookupStr mappings n.id with
      | none =>
        rw [syncVisit_some_none_eq]
        rfl
      | some row =>
        cases hpend : pendingUplinksetIds
            (getNetworkUplinksets bindings row.oneview_network_id) lst with
        | nil =>
          rw [syncVisit_some_some_nil bindings lst row n.id _ hpend]
          show (syncGo mappings bindings umap rest).err.isSome = true
          apply ih
          obtain ⟨y, hy, hatt⟩ := h
          rcases List.mem_cons.mp hy with rfl | hmem
          · exfalso
            rw [needsDriftAttention_some_some mappings bindings umap n seg lst row
              humap hrow] at hatt
            rw [(pendingUplinksetIds_eq_nil_iff _ _).mp hpend] at hatt
            exact absurd hatt (by decide)
          · exact ⟨y, hmem, hatt⟩
        | cons p ps =>
          rw [syncVisit_some_some_cons bindings lst row n.id _ p ps hpend]
          rfl

theorem createVisit_some_eq (row : MappingRow) (seg : Option Segment)
    (nid : String) (r : PassResult) :
    createVisit (some row) seg nid r = consCompleted nid r := rfl

theorem createVisit_none_none_eq (nid : String) (r : PassResult) :
    createVisit none none nid r = ⟨[], 0, some PyExc.attributeError⟩ := rfl

theorem createVisit_none_some_pnone (segment : Segment) (nid : String) (r : PassResult)
    (hphys : segment.physical_network = none) :
    createVisit none (some segment) nid r = consCompleted nid r := by
  simp [createVisit, hphys]

theorem createVisit_none_some_psome (segment : Segment) (nid : String) (r : PassResult)
    (hphys : segment.physical_network.isNone = false) :
    createVisit none (some segment) nid r = ⟨[], 0, some PyExc.attributeError⟩ := by
  simp [createVisit, hphys, clientUplinksetCall_eq]

theorem createGo_fabricOps_zero (segments : List (String × Segment)) (mappings : Db)
    (l : List NeutronNetwork) :
    (createGo segments mappings l).fabricOps = 0 := by
  induction l with
  | nil => rfl
  | cons n rest ih =>
    simp only [createGo]
    cases hrow : lookupStr mappings n.id with
    | some row =>
      rw [createVisit_some_eq]
      show (createGo segments mappings rest).fabricOps = 0
      exact ih
    | none =>
      cases hseg : lookupStr segments n.id with
      | none =>
        rw [createVisit_none_none_eq]
      | some segment =>
        by_cases hphys : segment.physical_network.isNone = true
        · rw [createVisit_none_some_pnone segment n.id _
            (Option.isNone_iff_eq_none.mp hphys)]
          show (createGo segments mappings rest).fabricOps = 0
          exact ih
        · rw [Bool.not_eq_true] at hphys
          rw [createVisit_none_some_psome segment n.id _ hphys]

theorem needsCreation_false_of_row (segments : List (String × Segment)) (mappings : Db)
    (n : NeutronNetwork) (hr : (lookupStr mappings n.id).isSome = true) :
    needsCreation segments mappings n = false := by
  obtain ⟨v, hv⟩ := Option.isSome_iff_exists.mp hr
  unfold needsCreation
  rw [hv]
  rfl

theorem needsCreation_false_of_physnet_none (segments : List (String × Segment))
    (mappings : Db) (n : NeutronNetwork) (segment : Segment)
    (hseg : lookupStr segments n.id = some segment)
    (hphys : segment.physical_network = none) :
    needsCreation segments mappings n = false := by
  unfold needsCreation
  rw [hseg]
  show ((lookupStr mappings n.id).isNone && segment.physical_network.isSome) = false
  rw [hphys]
  exact Bool.and_false _

theorem createGo_err_of_needsCreation (segments : List (String × Segment)) (mappings : Db)
    (l : List NeutronNetwork)
    (h : ∃ n ∈ l, needsCreation segments mappings n = true) :
    (createGo segments mappings l).err.isSome = true := by
  induction l with
  | nil =>
    obtain ⟨n, hn, _⟩ := h
    exact absurd hn (List.not_mem_nil n)
  | cons n rest ih =>
    simp only [createGo]
    cases hrow : lookupStr mappings n.id with
    | some row =>
      rw [createVisit_some_eq]
      show (createGo segments mappings rest).err.isSome = true
      apply ih
      obtain ⟨m, hm, hatt⟩ := h
      rcases List.mem_cons.mp hm with rfl | hmem
      · rw [needsCreation_false_of_row segments mappings m (by rw [hrow]; rfl)] at hatt
        exact absurd hatt (by decide)
      · exact ⟨m, hmem, hatt⟩
    | none =>
      cases hseg : lookupStr segments n.id with
      | none =>
        rw [createVisit_none_none_eq]
        rfl
      | some segment =>
        by_cases hphys : segment.physical_network.isNone = true
        · have hpn : segment.physical_network = none := Option.isNone_iff_eq_none.mp hphys
          rw [createVisit_none_some_pnone segment n.id _ hpn]
          show (createGo segments mappings rest).err.isSome = true
          apply ih
          obtain ⟨m, hm, hatt⟩ := h
          rcases List.mem_cons.mp hm with rfl | hmem
          · rw [needsCreation_false_of_physnet_none segments mappings m segment hseg
              hpn] at hatt
            exact absurd hatt (by decide)
          · exact ⟨m, hmem, hatt⟩
        · rw [Bool.not_eq_true] at hphys
          rw [createVisit_none_some_psome segment n.id _ hphys]
          rfl

/-- Claim C2: the Periodic Sync Engine cannot successfully drive the
client.  The Client construction in `InitSync.__init__` passes one
argument where three are required; the passes resolve
`self.client.uplinkset` though Client exposes only `network` and
`port`; and the `network.create` call passes four arguments against a
two-parameter signature.  Hence on every database state with a network
needing drift correction (or inconsistently missing its mapping row)
the sync pass raises before performing any fabric operation, and on
every database state with a network needing creation the create pass
does likewise. -/
theorem init_sync_cannot_drive_client :
    initSyncConstructsClient = false ∧
    clientAttributes.contains "uplinkset" = false ∧
    pyCallOk networkCreateRequiredArgs initSyncNetworkCreateArgs = false ∧
    (∀ (db : SyncDb) (umap : List (String × List String)),
      (∃ x ∈ db.networks_and_segments,
        needsDriftAttention db.mappings db.uplinkset_bindings umap x = true) →
      (checkAndSyncMappedUplinksetsOnDb db umap).err.isSome = true ∧
      (checkAndSyncMappedUplinksetsOnDb db umap).fabricOps = 0) ∧
    (∀ (db : CreateSyncDb),
      (∃ n ∈ db.neutron_networks, needsCreation db.segments db.mappings n = true) →
      (checkMappedNetworksOnDbAndCreateOnOneview db).err.isSome = true ∧
      (checkMappedNetworksOnDbAndCreateOnOneview db).fabricOps = 0) := by
  refine ⟨rfl, rfl, rfl, ?_, ?_⟩
  · intro db umap h
    exact ⟨syncGo_err_of_attention db.mappings db.uplinkset_bindings umap
        db.networks_and_segments h,
      syncGo_fabricOps_zero db.mappings db.uplinkset_bindings umap
        db.networks_and_segments⟩
  · intro db h
    exact ⟨createGo_err_of_needsCreation db.segments db.mappings db.neutron_networks h,
      createGo_fabricOps_zero db.segments db.mappings db.neutron_networks⟩

/-- Witness for C2: a network bound to uplink set u2 while the
configuration wants u1 (drift), and a second database with an unmapped
network on a physical network (creation); both passes raise with zero
fabric operations. -/
theorem init_sync_cannot_drive_client_witness :
    (∃ x ∈ [((⟨"n1", "net1"⟩ : NeutronNetwork), (⟨some "p", some "vlan", some 1⟩ : Segment))],
      needsDriftAttention ([("n1", ⟨"ov1", ["u2"], true⟩)] : Db)
        ([("ov1", "u2")] : Bindings) [("p", ["u1"])] x = true) ∧
    ((checkAndSyncMappedUplinksetsOnDb
        ⟨[(⟨"n1", "net1"⟩, ⟨some "p", some "vlan", some 1⟩)],
          [("n1", ⟨"ov1", ["u2"], true⟩)], [("ov1", "u2")]⟩
        [("p", ["u1"])]).err.isSome = true ∧
      (checkAndSyncMappedUplinksetsOnDb
        ⟨[(⟨"n1", "net1"⟩, ⟨some "p", some "vlan", some 1⟩)],
          [("n1", ⟨"ov1", ["u2"], true⟩)], [("ov1", "u2")]⟩
        [("p", ["u1"])]).fabricOps = 0) ∧
    (∃ n ∈ [(⟨"n3", "net3"⟩ : NeutronNetwork)],
      needsCreation [("n3", ⟨some "r", some "vlan", some 3⟩)] ([] : Db) n = true) ∧
    ((checkMappedNetworksOnDbAndCreateOnOneview
        ⟨[⟨"n3", "net3"⟩], [("n3", ⟨some "r", some "vlan", some 3⟩)], []⟩).err.isSome = true ∧
      (checkMappedNetworksOnDbAndCreateOnOneview
        ⟨[⟨"n3", "net3"⟩], [("n3", ⟨some "r", some "vlan", some 3⟩)], []⟩).fabricOps = 0) := by
  refine ⟨by decide, ?_, by decide, ?_⟩
  · exact init_sync_cannot_drive_client.2.2.2.1
      ⟨[(⟨"n1", "net1"⟩, ⟨some "p", some "vlan", some 1⟩)],
        [("n1", ⟨"ov1", ["u2"], true⟩)], [("ov1", "u2")]⟩
      [("p", ["u1"])] (by decide)
  · exact init_sync_cannot_drive_client.2.2.2.2
      ⟨[⟨"n3", "net3"⟩], [("n3", ⟨some "r", some "vlan", some 3⟩)], []⟩ (by decide)

/-- Counterexample for C5: in the drift-correction pass, network n1 has
its physical network in the mapping table but no NetworkMapping row;
the pass raises AttributeError there and network n2 is never processed
— the claim's "every remaining logical network is still processed"
fails. -/
theorem sync_pass_aborts_cex :
    (checkAndSyncMappedUplinksetsOnDb
      ⟨[(⟨"n1", "net1"⟩, ⟨some "p", some "vlan", some 1⟩),
        (⟨"n2", "net2"⟩, ⟨some "p", some "vlan", some 2⟩)], [], []⟩
      [("p", ["u1"])]).err = some PyExc.attributeError ∧
    ((checkAndSyncMappedUplinksetsOnDb
      ⟨[(⟨"n1", "net1"⟩, ⟨some "p", some "vlan", some 1⟩),
        (⟨"n2", "net2"⟩, ⟨some "p", some "vlan", some 2⟩)], [], []⟩
      [("p", ["u1"])]).completed.contains "n2") = false := by
  decide

/-- Claim C5 as amended: the drift-correction pass has no per-network
exception handling, so a network whose physical network is in the
uplink-set mapping table but which has no NetworkMapping row raises and
aborts the whole pass: only networks strictly before it can have
completed, and every remaining network is skipped. -/
theorem sync_pass_abort_skips_remaining
    (mappings : Db) (bindings : Bindings) (umap : List (String × List String))
    (pre post : List (NeutronNetwork × Segment)) (n : NeutronNetwork) (seg : Segment)
    (hin : (lookupOptKey umap seg.physical_network).isSome = true)
    (hrow : lookupStr mappings n.id = none) :
    (syncGo mappings bindings umap (pre ++ (n, seg) :: post)).err.isSome = true ∧
    ∀ x ∈ (syncGo mappings bindings umap (pre ++ (n, seg) :: post)).completed,
      x ∈ pre.map (fun q => q.1.id) := by
  induction pre with
  | nil =>
    rw [List.nil_append]
    obtain ⟨lst, hl⟩ := Option.isSome_iff_exists.mp hin
    simp only [syncGo]
    rw [hl, hrow, syncVisit_some_none_eq]
    exact ⟨rfl, fun x hx => absurd hx (List.not_mem_nil x)⟩
  | cons q pre' ih =>
    obtain ⟨m, s⟩ := q
    rw [List.cons_append]
    simp only [syncGo]
    cases humap : lookupOptKey umap s.physical_network with
    | none =>
      rw [syncVisit_none_eq]
      refine ⟨ih.1, ?_⟩
      intro x hx
      have hx2 : x ∈ m.id ::
          (syncGo mappings bindings umap (pre' ++ (n, seg) :: post)).completed := hx
      rcases List.mem_cons.mp hx2 with rfl | hmem
      · exact List.mem_cons_self _ _
      · exact List.mem_cons_of_mem _ (ih.2 x hmem)
    | some lst =>
      cases hrowm : lookupStr mappings m.id with
      | none =>
        rw [syncVisit_some_none_eq]
        exact ⟨rfl, fun x hx => absurd hx (List.not_mem_nil x)⟩
      | some rowm =>
        cases hpend : pendingUplinksetIds
            (getNetworkUplinksets bindings rowm.oneview_network_id) lst with
        | nil =>
          rw [syncVisit_some_some_nil bindings lst rowm m.id _ hpend]
          refine ⟨ih.1, ?_⟩
          intro x hx
          have hx2 : x ∈ m.id ::
              (syncGo mappings bindings umap (pre' ++ (n, seg) :: post)).completed := hx
          rcases List.mem_cons.mp hx2 with rfl | hmem
          · exact List.mem_cons_self _ _
          · exact List.mem_cons_of_mem _ (ih.2 x hmem)
        | cons p ps =>
          rw [syncVisit_some_some_cons bindings lst rowm m.id _ p ps hpend]
          exact ⟨rfl, fun x hx => absurd hx (List.not_mem_nil x)⟩

/-- Witness for the amended C5 at concrete inputs: with n0 (unmanaged
physical network) before the failing n1 and n2 after it, the pass
raises and every completed id is among the networks before n1. -/
theorem sync_pass_abort_skips_remaining_witness :
    (lookupOptKey [("p", ["u1"])] (some "p")).isSome = true ∧
    lookupStr ([] : Db) "n1" = none ∧
    ((syncGo ([] : Db) ([] : Bindings) [("p", ["u1"])]
        ([(⟨"n0", "net0"⟩, ⟨some "x", some "flat", none⟩)] ++
          (⟨"n1", "net1"⟩, (⟨some "p", some "vlan", some 1⟩ : Segment)) ::
          [(⟨"n2", "net2"⟩, ⟨some "p", some "vlan", some 2⟩)])).err.isSome = true ∧
      ∀ x ∈ (syncGo ([] : Db) ([] : Bindings) [("p", ["u1"])]
        ([(⟨"n0", "net0"⟩, ⟨some "x", some "flat", none⟩)] ++
          (⟨"n1", "net1"⟩, (⟨some "p", some "vlan", some 1⟩ : Segment)) ::
          [(⟨"n2", "net2"⟩, ⟨some "p", some "vlan", some 2⟩)])).completed,
        x ∈ ([(⟨"n0", "net0"⟩,
          (⟨some "x", some "flat", none⟩ : Segment))] : List (NeutronNetwork × Segment)).map
            (fun q => q.1.id)) := by
  refine ⟨by decide, by decide, ?_⟩
  exact sync_pass_abort_skips_remaining ([] : Db) ([] : Bindings) [("p", ["u1"])]
    [(⟨"n0", "net0"⟩, ⟨some "x", some "flat", none⟩)]
    [(⟨"n2", "net2"⟩, ⟨some "p", some "vlan", some 2⟩)]
    ⟨"n1", "net1"⟩ ⟨some "p", some "vlan", some 1⟩ (by decide) (by decide)
